import Mathlib

/-!
Verification of the provider request/response adaptation layer of the `cai`
command-line LLM client (Rust). The definitions below are a shallow embedding
of `src/lib.rs`, `src/types.rs` and the alias tables of `build.rs` /
`src_templates/models.rs`; the theorems settle the frozen claims about the
natural-language specification of that layer.

Conventions of the embedding:
* `serde_json::Value` is modelled by `Json`, with objects as association
  lists in insertion order and `serde_json::Map::insert` as `mapInsert`
  (replace the value when the key is present, append otherwise).
* JSON numbers are modelled as integers (`Int`); fractional and exponent
  forms are outside the model, so `parseJson` rejects them.
* `std::process::exit(1)` inside the payload shaper is modelled by the
  distinguished outcome `ShapeOutcome.processExit 1`.
* `Vec` indexing `v[0]` on a possibly-empty vector is modelled by an explicit
  `ExtractOutcome.panic` outcome when the vector is empty.
* The configuration `HashMap<String, String>` is modelled as a function
  `String → Option String` (`FullConfig`).
-/

/-- Shallow embedding of `serde_json::Value`. Objects are association lists
in insertion order; numbers are modelled as integers. -/
inductive Json where
  | null : Json
  | bool (value : Bool) : Json
  | num (value : Int) : Json
  | str (value : String) : Json
  | arr (items : List Json) : Json
  | obj (fields : List (String × Json)) : Json

/-- Model of `serde_json::Map::insert`: replace the value of an existing key
in place, otherwise append the new entry. -/
def mapInsert (entries : List (String × Json)) (k : String) (v : Json) :
    List (String × Json) :=
  match entries with
  | [] => [(k, v)]
  | (k0, v0) :: rest =>
    if k0 = k then (k, v) :: rest else (k0, v0) :: mapInsert rest k v

/-- First binding of key `k` in a JSON object's entry list. -/
def lookupKey (entries : List (String × Json)) (k : String) : Option Json :=
  match entries.find? (fun e => e.1 == k) with
  | some e => some e.2
  | none => none

/-- Whether an object entry list has a binding for key `k`. -/
def hasKey (entries : List (String × Json)) (k : String) : Bool :=
  entries.any (fun e => e.1 == k)

/-- Number of bindings of key `k` in an object entry list. -/
def countKey (entries : List (String × Json)) (k : String) : Nat :=
  (entries.filter (fun e => e.1 == k)).length

/-- Model of Rust's `str::starts_with`. -/
def strStartsWith (s pre : String) : Bool :=
  pre.data.isPrefixOf s.data

/-- Helper for `strContainsStr`: does `sub` occur as a contiguous block? -/
def containsAux (sub : List Char) : List Char → Bool
  | [] => sub.isPrefixOf []
  | c :: rest => sub.isPrefixOf (c :: rest) || containsAux sub rest

/-- Model of Rust's `str::contains` with a literal pattern. -/
def strContainsStr (s sub : String) : Bool :=
  containsAux sub.data s.data

/-- Model of Rust's `str::trim_end_matches('/')`: drop all trailing
slash characters. -/
def trimEndSlashes (s : String) : String :=
  ⟨(s.data.reverse.dropWhile (fun c => c = '/')).reverse⟩

/-- JSON whitespace, as accepted between tokens by `serde_json`. -/
def jsonWs (c : Char) : Bool :=
  (c == ' ') || (c == '\n') || (c == '\t') || (c == '\r')

/-- Skip JSON whitespace. -/
def skipWs (cs : List Char) : List Char :=
  cs.dropWhile jsonWs

/-- The opening-brace character of a JSON object. -/
def braceOpen : Char := Char.ofNat 123

/-- The closing-brace character of a JSON object. -/
def braceClose : Char := Char.ofNat 125

/-- Decimal value of a digit character list. -/
def digitsToNat (ds : List Char) : Nat :=
  ds.foldl (fun acc c => acc * 10 + (c.toNat - 48)) 0

/-- Parse the body of a JSON string literal (after the opening quote),
returning the decoded characters and the remainder after the closing quote.
`\u` escapes are outside the model. -/
def parseStringChars : Nat → List Char → Option (List Char × List Char)
  | 0, _ => none
  | _ + 1, [] => none
  | fuel + 1, c :: rest =>
    if c = '"' then some ([], rest)
    else if c = '\\' then
      match rest with
      | [] => none
      | e :: rest2 =>
        let esc : Option Char :=
          if e = '"' then some '"'
          else if e = '\\' then some '\\'
          else if e = '/' then some '/'
          else if e = 'n' then some '\n'
          else if e = 't' then some '\t'
          else if e = 'r' then some '\r'
          else none
        match esc with
        | none => none
        | some ch =>
          (parseStringChars fuel rest2).map (fun p => (ch :: p.1, p.2))
    else (parseStringChars fuel rest).map (fun p => (c :: p.1, p.2))

/-- Parse a JSON integer literal (sign and digits; fractional or exponent
parts and redundant leading zeros are rejected, as `serde_json` rejects the
latter and the former are outside the model). -/
def parseNumber (cs : List Char) : Option (Json × List Char) :=
  let signSplit : Bool × List Char :=
    match cs with
    | c :: rest => if c = '-' then (true, rest) else (false, cs)
    | [] => (false, cs)
  let ds := signSplit.2.takeWhile Char.isDigit
  let rest := signSplit.2.dropWhile Char.isDigit
  match ds with
  | [] => none
  | d0 :: dtail =>
    if d0 = '0' ∧ dtail ≠ [] then none
    else
      let bad : Bool :=
        match rest with
        | c :: _ => c == '.' || c == 'e' || c == 'E'
        | [] => false
      if bad then none
      else
        let n : Int := digitsToNat ds
        some (Json.num (if signSplit.1 then -n else n), rest)

mutual

/-- Parse one JSON value starting at the head of `cs` (no leading
whitespace). Fuel-indexed recursion. -/
def parseValue : Nat → List Char → Option (Json × List Char)
  | 0, _ => none
  | fuel + 1, cs =>
    match cs with
    | [] => none
    | c :: rest =>
      if ("null".data).isPrefixOf cs then some (Json.null, cs.drop 4)
      else if ("true".data).isPrefixOf cs then some (Json.bool true, cs.drop 4)
      else if ("false".data).isPrefixOf cs then
        some (Json.bool false, cs.drop 5)
      else if c = '"' then
        (parseStringChars fuel rest).map
          (fun p => (Json.str ⟨p.1⟩, p.2))
      else if c = '[' then
        match skipWs rest with
        | c2 :: rest2 =>
          if c2 = ']' then some (Json.arr [], rest2)
          else
            (parseArrayRest fuel (skipWs rest)).map
              (fun p => (Json.arr p.1, p.2))
        | [] => none
      else if c = braceOpen then
        match skipWs rest with
        | c2 :: rest2 =>
          if c2 = braceClose then some (Json.obj [], rest2)
          else
            (parseObjRest fuel (skipWs rest)).map
              (fun p =>
                (Json.obj (p.1.foldl (fun m e => mapInsert m e.1 e.2) []),
                 p.2))
        | [] => none
      else parseNumber cs

/-- Parse the elements of a non-empty JSON array, positioned at the start of
the next element. -/
def parseArrayRest : Nat → List Char → Option (List Json × List Char)
  | 0, _ => none
  | fuel + 1, cs =>
    match parseValue fuel cs with
    | none => none
    | some (v, rest) =>
      match skipWs rest with
      | c :: rest2 =>
        if c = ',' then
          (parseArrayRest fuel (skipWs rest2)).map
            (fun p => (v :: p.1, p.2))
        else if c = ']' then some ([v], rest2)
        else none
      | [] => none

/-- Parse the members of a non-empty JSON object, positioned at the start of
the next key. -/
def parseObjRest : Nat → List Char → Option (List (String × Json) × List Char)
  | 0, _ => none
  | fuel + 1, cs =>
    match cs with
    | c :: rest =>
      if c = '"' then
        match parseStringChars fuel rest with
        | none => none
        | some (key, rest2) =>
          match skipWs rest2 with
          | c2 :: rest3 =>
            if c2 = ':' then
              match parseValue fuel (skipWs rest3) with
              | none => none
              | some (v, rest4) =>
                match skipWs rest4 with
                | c3 :: rest5 =>
                  if c3 = ',' then
                    (parseObjRest fuel (skipWs rest5)).map
                      (fun p => ((⟨key⟩, v) :: p.1, p.2))
                  else if c3 = braceClose then some ([(⟨key⟩, v)], rest5)
                  else none
                | [] => none
            else none
          | [] => none
      else none
    | [] => none

end

/-- Model of `serde_json::from_str::<Value>` on the fragment of JSON the
claims exercise: the whole input (modulo surrounding whitespace) must be one
JSON value. -/
def parseJson (s : String) : Option Json :=
  match parseValue (s.data.length + 1) (skipWs s.data) with
  | some (v, rest) => if skipWs rest = [] then some v else none
  | none => none


/-- The closed `Provider` enumeration of `lib.rs`. -/
inductive Provider where
  | Anthropic
  | Cerebras
  | DeepSeek
  | Google
  | Groq
  | OpenAI
  | Llamafile
  | Ollama
  | XAI
  | Perplexity
deriving DecidableEq

/-- The `Display` implementation for `Provider` in `lib.rs`. -/
def providerDisplay : Provider → String
  | .Anthropic => "Anthropic"
  | .Cerebras => "Cerebras"
  | .DeepSeek => "DeepSeek"
  | .Google => "Google"
  | .Groq => "Groq"
  | .Llamafile => "Llamafile"
  | .Ollama => "Ollama"
  | .OpenAI => "OpenAI"
  | .XAI => "xAI"
  | .Perplexity => "Perplexity"

/-- The `Model` enum of `lib.rs` (single variant `Model(Provider, String)`),
modelled as a structure with named fields. -/
structure Model where
  provider : Provider
  model_id : String
deriving DecidableEq

/-- `impl Default for Model`: Groq with `openai/gpt-oss-20b`. -/
def Model.default : Model := ⟨.Groq, "openai/gpt-oss-20b"⟩

/-- The fragment of the `Commands` subcommand enum of `types.rs` inspected by
the payload shaper and response extractor: `Openai {model, prompt}`,
`Image {prompt}` and `Photo {prompt}`. All remaining constructors are never
inspected by the shaping logic and are collapsed into `otherCommand`. -/
inductive Commands where
  | Openai (model : String) (prompt : List String)
  | Image (prompt : List String)
  | Photo (prompt : List String)
  | otherCommand
deriving DecidableEq

/-- The `ExecOptions` struct of `lib.rs`. -/
structure ExecOptions where
  is_raw : Bool
  is_json : Bool
  json_schema : Option Json
  subcommand : Option Commands

/-- `ExecOptions` derives `Default` in the source: all flags off. -/
def ExecOptions.default : ExecOptions :=
  ⟨false, false, none, none⟩

/-- The internal `AiRequest` descriptor of `lib.rs`. `max_tokens` is a `u32`
in the source; only the value 4096 occurs, so it is modelled as `Nat`. -/
structure AiRequest where
  provider : Provider
  url : String
  model : String
  prompt : String
  max_tokens : Nat
  api_key : String

/-- `impl Default for AiRequest`: empty strings, `max_tokens = 4096` and the
default provider (Anthropic). -/
def AiRequest.default : AiRequest :=
  ⟨.Anthropic, "", "", "", 4096, ""⟩

/-- The configuration `HashMap<String, String>` (unique keys), modelled as a
lookup function. -/
abbrev FullConfig : Type := String → Option String

/-- The `ANTHROPIC_MODEL_MAPPING_SRC` table of `build.rs`. -/
def ANTHROPIC_MODEL_MAPPING : List (String × String) := [
  ("claude-opus", "claude-opus-4-0"),
  ("opus", "claude-opus-4-0"),
  ("op", "claude-opus-4-0"),
  ("o", "claude-opus-4-0"),
  ("claude-sonnet", "claude-sonnet-4-0"),
  ("sonnet", "claude-sonnet-4-0"),
  ("so", "claude-sonnet-4-0"),
  ("s", "claude-sonnet-4-0"),
  ("claude-haiku", "claude-3-5-haiku-latest"),
  ("haiku", "claude-3-5-haiku-latest"),
  ("ha", "claude-3-5-haiku-latest"),
  ("h", "claude-3-5-haiku-latest"),
  ("claude-opus-4-1", "claude-opus-4-1"),
  ("opus-4-1", "claude-opus-4-1"),
  ("claude-opus-4-0", "claude-opus-4-0"),
  ("opus-4-0", "claude-opus-4-0"),
  ("claude-sonnet-4-0", "claude-sonnet-4-0"),
  ("sonnet-4-0", "claude-sonnet-4-0"),
  ("claude-opus-3-7", "claude-3-opus-latest"),
  ("opus-3-7", "claude-3-opus-latest"),
  ("claude-sonnet-3-7", "claude-3-7-sonnet-latest"),
  ("sonnet-3-7", "claude-3-7-sonnet-latest"),
  ("claude-sonnet-3-5", "claude-3-5-sonnet-latest"),
  ("sonnet-3-5", "claude-3-5-sonnet-latest"),
  ("claude-haiku-3-5", "claude-3-5-haiku-latest"),
  ("haiku-3-5", "claude-3-5-haiku-latest"),
  ("claude-opus-3", "claude-3-opus-latest"),
  ("opus-3", "claude-3-opus-latest"),
  ("claude-sonnet-3", "claude-3-sonnet-20240229"),
  ("sonnet-3", "claude-3-sonnet-20240229"),
  ("claude-haiku-3", "claude-3-haiku-20240307"),
  ("haiku-3", "claude-3-haiku-20240307"),
  ("claude-sonnet-3-7", "claude-3-7-sonnet-latest"),
  ("sonnet-3-7", "claude-3-7-sonnet-latest")]

/-- The `CEREBRAS_MODEL_MAPPING_SRC` table of `build.rs`. -/
def CEREBRAS_MODEL_MAPPING : List (String × String) := [
  ("gpt", "gpt-oss-120b"),
  ("llama", "llama3.1-8b"),
  ("ll", "llama3.1-8b"),
  ("l", "llama3.1-8b"),
  ("llama-8b", "llama3.1-8b"),
  ("llama-70b", "llama-3.3-70b"),
  ("deepseek", "deepseek-r1-distill-llama-70b"),
  ("deep", "deepseek-r1-distill-llama-70b"),
  ("d", "deepseek-r1-distill-llama-70b"),
  ("llama31", "llama-3.1-8b"),
  ("llama31-8b", "llama-3.1-8b"),
  ("llama33", "llama-3.3-70b"),
  ("llama33-70b", "llama-3.3-70b"),
  ("deepseek-r1", "deepseek-r1-distill-llama-70b")]

/-- The `DEEPSEEK_MODEL_MAPPING_SRC` table of `build.rs`. -/
def DEEPSEEK_MODEL_MAPPING : List (String × String) := [
  ("chat", "deepseek-chat"),
  ("reasoner", "deepseek-reasoner")]

/-- The `GOOGLE_MODEL_MAPPING_SRC` table of `build.rs`. -/
def GOOGLE_MODEL_MAPPING : List (String × String) := [
  ("gemini", "gemini-2.5-flash"),
  ("g", "gemini-2.5-flash"),
  ("flash", "gemini-2.5-flash"),
  ("f", "gemini-2.5-flash"),
  ("gemini-pro", "gemini-2.5-pro"),
  ("pro", "gemini-2.5-pro"),
  ("gemini-flash-lite", "gemini-2.0-flash-lite"),
  ("flast-lite", "gemini-2.0-flash-lite"),
  ("lite", "gemini-2.0-flash-lite"),
  ("gemini-2.5-flash", "gemini-2.5-flash"),
  ("gemini-2.5-pro", "gemini-2.5-pro"),
  ("gemini-2-flash", "gemini-2.0-flash"),
  ("gemini-1.5-flash", "gemini-1.5-flash"),
  ("gemini-1.5-pro", "gemini-1.5-pro")]

/-- The `GROQ_MODEL_MAPPING_SRC` table of `build.rs`. -/
def GROQ_MODEL_MAPPING : List (String × String) := [
  ("gpt", "openai/gpt-oss-20b"),
  ("gp", "openai/gpt-oss-20b"),
  ("llama", "llama-3.1-8b-instant"),
  ("ll", "llama-3.1-8b-instant"),
  ("llama-instant", "llama-3.1-8b-instant"),
  ("llama-versatile", "llama-3.1-70b-versatile"),
  ("llama-reasoning", "llama-3.1-405b-reasoning"),
  ("gpt-20b", "openai/gpt-oss-20b"),
  ("gpt-120b", "openai/gpt-oss-120b"),
  ("llama31", "llama-3.1-8b-instant"),
  ("llama31-8b", "llama-3.1-8b-instant"),
  ("llama31-70b", "llama-3.1-70b-versatile"),
  ("llama31-405b", "llama-3.1-405b-reasoning"),
  ("llama3", "llama3-8b-8192"),
  ("llama3-8b", "llama3-8b-8192"),
  ("llama3-70b", "llama3-70b-8192"),
  ("whisper", "whisper-large-v3"),
  ("whisper-turbo", "whisper-large-v3-turbo"),
  ("qwen", "qwen3-32b"),
  ("deepseek", "deepseek-r1-distill-llama-70b")]

/-- The `OLLAMA_MODEL_MAPPING_SRC` table of `build.rs`. -/
def OLLAMA_MODEL_MAPPING : List (String × String) := [
  ("llama", "llama3.1"),
  ("ll", "llama3.1"),
  ("l", "llama3.1"),
  ("mixtral", "mixtral"),
  ("mix", "mixtral"),
  ("m", "mixtral"),
  ("mistral", "mistral"),
  ("mis", "mistral"),
  ("gemma", "gemma"),
  ("ge", "gemma"),
  ("g", "gemma"),
  ("codegemma", "codegemma"),
  ("cg", "codegemma"),
  ("c", "codegemma"),
  ("command-r", "command-r"),
  ("cr", "command-r"),
  ("command-r-plus", "command-r-plus"),
  ("crp", "command-r-plus"),
  ("llama3", "llama3.1"),
  ("llama3.0", "llama3"),
  ("llama2", "llama2")]

/-- The `OPENAI_MODEL_MAPPING_SRC` table of `build.rs`. -/
def OPENAI_MODEL_MAPPING : List (String × String) := [
  ("gpt", "gpt-5"),
  ("mini", "gpt-5-mini"),
  ("m", "gpt-5-mini"),
  ("nano", "gpt-5-nano"),
  ("n", "gpt-5-nano"),
  ("image", "gpt-5"),
  ("tts", "gpt-4o-mini-tts"),
  ("transcribe", "gpt-4o-transcribe"),
  ("gpt5", "gpt-5"),
  ("gpt5mini", "gpt-5-mini"),
  ("gpt5nano", "gpt-5-nano"),
  ("5", "gpt-5"),
  ("5mini", "gpt-5-mini"),
  ("5m", "gpt-5-mini"),
  ("5nano", "gpt-5-nano"),
  ("5n", "gpt-5-nano"),
  ("gptimage", "gpt-image-1"),
  ("gpt-image", "gpt-image-1"),
  ("gpt-image-1", "gpt-image-1"),
  ("dalle", "dall-e-3"),
  ("dalle3", "dall-e-3"),
  ("dalle2", "dall-e-2"),
  ("gpt4", "gpt-4.1"),
  ("gpt4mini", "gpt-4.1-mini"),
  ("4mini", "gpt-4.1-mini"),
  ("4m", "gpt-4.1-mini"),
  ("gpt4nano", "gpt-4.1-nano"),
  ("4nano", "gpt-4.1-nano"),
  ("4n", "gpt-4.1-nano"),
  ("gpt4o", "gpt-4o"),
  ("4o", "gpt-4o"),
  ("gpt4ominitts", "gpt-4o-mini-tts"),
  ("gpt4otranscribe", "gpt-4o-transcribe"),
  ("o4m", "o4-mini"),
  ("o4mdr", "o4-mini-deep-research"),
  ("o3pro", "o3-pro"),
  ("o3dr", "o3-deep-research")]

/-- The `XAI_MODEL_MAPPING_SRC` table of `build.rs`. -/
def XAI_MODEL_MAPPING : List (String × String) := [
  ("grok", "grok-4-latest"),
  ("grok-mini", "grok-3-mini-latest"),
  ("grok-image", "grok-2-image-latest"),
  ("grok4", "grok-4-latest"),
  ("grok3", "grok-3-latest"),
  ("grok3mini", "grok-3-mini-latest")]

/-- The `PERPLEXITY_MODEL_MAPPING_SRC` table of `build.rs`. -/
def PERPLEXITY_MODEL_MAPPING : List (String × String) := [
  ("sonar", "sonar"),
  ("s", "sonar"),
  ("sonar-pro", "sonar-pro"),
  ("sp", "sonar-pro"),
  ("sonar-reasoning", "sonar-reasoning"),
  ("sr", "sonar-reasoning"),
  ("sonar-reasoning-pro", "sonar-reasoning-pro"),
  ("srp", "sonar-reasoning-pro"),
  ("sonar-deep-research", "sonar-deep-research"),
  ("sdr", "sonar-deep-research"),
  ("r1-1776", "r1-1776"),
  ("r", "r1-1776"),
  ("offline", "r1-1776"),
  ("llama-small", "llama-3.1-sonar-small-128k-online"),
  ("ls", "llama-3.1-sonar-small-128k-online"),
  ("llama-large", "llama-3.1-sonar-large-128k-online"),
  ("ll", "llama-3.1-sonar-large-128k-online"),
  ("llama-huge", "llama-3.1-sonar-huge-128k-online"),
  ("lh", "llama-3.1-sonar-huge-128k-online")]

/-- The shared lookup pattern of every `get_*_model` function generated into
`models.rs`: first exact match in the table wins, otherwise the input is
returned unchanged (`.iter().find(...).map_or(model_id, ...)`). -/
def resolve_alias (mapping : List (String × String)) (model_id : String) :
    String :=
  match mapping.find? (fun e => e.1 == model_id) with
  | some e => e.2
  | none => model_id

/-- `get_anthropic_model` of the generated `models.rs`. -/
def get_anthropic_model (model_id : String) : String :=
  resolve_alias ANTHROPIC_MODEL_MAPPING model_id

/-- `get_cerebras_model` of the generated `models.rs`. -/
def get_cerebras_model (model_id : String) : String :=
  resolve_alias CEREBRAS_MODEL_MAPPING model_id

/-- `get_deepseek_model` of the generated `models.rs`. -/
def get_deepseek_model (model_id : String) : String :=
  resolve_alias DEEPSEEK_MODEL_MAPPING model_id

/-- `get_google_model` of the generated `models.rs`. -/
def get_google_model (model_id : String) : String :=
  resolve_alias GOOGLE_MODEL_MAPPING model_id

/-- `get_groq_model` of the generated `models.rs`. -/
def get_groq_model (model_id : String) : String :=
  resolve_alias GROQ_MODEL_MAPPING model_id

/-- `get_ollama_model` of the generated `models.rs`. -/
def get_ollama_model (model_id : String) : String :=
  resolve_alias OLLAMA_MODEL_MAPPING model_id

/-- `get_openai_model` of the generated `models.rs`. -/
def get_openai_model (model_id : String) : String :=
  resolve_alias OPENAI_MODEL_MAPPING model_id

/-- `get_xai_model` of the generated `models.rs`. -/
def get_xai_model (model_id : String) : String :=
  resolve_alias XAI_MODEL_MAPPING model_id

/-- `get_perplexity_model`: generated with the identical pattern from
`PERPLEXITY_MODEL_MAPPING_SRC` in `build.rs` (the template section for it is
not present in this source snapshot, but `lib.rs` calls it and the build
script carries its data; the lookup pattern is the one shared by every other
generated resolver). -/
def get_perplexity_model (model_id : String) : String :=
  resolve_alias PERPLEXITY_MODEL_MAPPING model_id

/-- Per-provider alias table, as used by the per-provider resolvers.
Llamafile has no table (its model id is used verbatim). -/
def modelMapping : Provider → List (String × String)
  | .Anthropic => ANTHROPIC_MODEL_MAPPING
  | .Cerebras => CEREBRAS_MODEL_MAPPING
  | .DeepSeek => DEEPSEEK_MODEL_MAPPING
  | .Google => GOOGLE_MODEL_MAPPING
  | .Groq => GROQ_MODEL_MAPPING
  | .Llamafile => []
  | .Ollama => OLLAMA_MODEL_MAPPING
  | .OpenAI => OPENAI_MODEL_MAPPING
  | .XAI => XAI_MODEL_MAPPING
  | .Perplexity => PERPLEXITY_MODEL_MAPPING

/-- The provider → resolver dispatch of `get_used_model` in `lib.rs`
(Llamafile passes the model id through unresolved). -/
def resolve_model (p : Provider) (model_id : String) : String :=
  match p with
  | .Anthropic => get_anthropic_model model_id
  | .Cerebras => get_cerebras_model model_id
  | .DeepSeek => get_deepseek_model model_id
  | .Google => get_google_model model_id
  | .Groq => get_groq_model model_id
  | .Llamafile => model_id
  | .Ollama => get_ollama_model model_id
  | .OpenAI => get_openai_model model_id
  | .XAI => get_xai_model model_id
  | .Perplexity => get_perplexity_model model_id

/-- `get_base_url` of `lib.rs`: configuration override (when present and
non-empty, with trailing slashes stripped), otherwise the hard-coded
default. -/
def get_base_url (full_config : FullConfig) (key dflt : String) : String :=
  match full_config key with
  | some s => if s = "" then dflt else trimEndSlashes s
  | none => dflt

/-- `default_req_for_model` of `lib.rs`: provider-specific URL and resolved
model id over the default `AiRequest`. -/
def default_req_for_model (model : Model) (full_config : FullConfig) :
    AiRequest :=
  match model.provider with
  | .Anthropic =>
    let base_url :=
      get_base_url full_config "anthropic_base_url" "https://api.anthropic.com/v1"
    { AiRequest.default with
      provider := .Anthropic
      url := base_url ++ "/messages"
      model := get_anthropic_model model.model_id }
  | .Cerebras =>
    let base_url :=
      get_base_url full_config "cerebras_base_url" "https://api.cerebras.ai/v1"
    { AiRequest.default with
      provider := .Cerebras
      url := base_url ++ "/chat/completions"
      model := get_cerebras_model model.model_id }
  | .DeepSeek =>
    let base_url :=
      get_base_url full_config "deepseek_base_url" "https://api.deepseek.com"
    { AiRequest.default with
      provider := .DeepSeek
      url := base_url ++ "/chat/completions"
      model := get_deepseek_model model.model_id }
  | .Google =>
    let resolved_model := get_google_model model.model_id
    let base_url :=
      get_base_url full_config "google_base_url"
        "https://generativelanguage.googleapis.com/v1beta"
    { AiRequest.default with
      provider := .Google
      url := base_url ++ "/models"
      model := resolved_model }
  | .Groq =>
    let base_url :=
      get_base_url full_config "groq_base_url" "https://api.groq.com/openai/v1"
    { AiRequest.default with
      provider := .Groq
      url := base_url ++ "/chat/completions"
      model := get_groq_model model.model_id }
  | .Llamafile =>
    let base_url :=
      get_base_url full_config "llamafile_base_url" "http://localhost:8080/v1"
    { AiRequest.default with
      provider := .Llamafile
      url := base_url ++ "/chat/completions" }
  | .Ollama =>
    let base_url :=
      get_base_url full_config "ollama_base_url" "http://localhost:11434/v1"
    { AiRequest.default with
      provider := .Ollama
      url := base_url ++ "/chat/completions"
      model := get_ollama_model model.model_id }
  | .OpenAI =>
    let resolved_model := get_openai_model model.model_id
    let base_url :=
      get_base_url full_config "openai_base_url" "https://api.openai.com/v1"
    let url :=
      if strContainsStr resolved_model "-tts" then
        base_url ++ "/audio/speech"
      else if strStartsWith resolved_model "gpt-image" ∨
          strStartsWith resolved_model "dall" then
        base_url ++ "/images/generations"
      else base_url ++ "/chat/completions"
    { AiRequest.default with
      provider := .OpenAI
      url := url
      model := resolved_model }
  | .XAI =>
    let resolved_model := get_xai_model model.model_id
    let base_url := get_base_url full_config "xai_base_url" "https://api.x.ai/v1"
    let url :=
      if resolved_model = "grok-2-image" then
        base_url ++ "/images/generations"
      else base_url ++ "/chat/completions"
    { AiRequest.default with
      provider := .XAI
      url := url
      model := resolved_model }
  | .Perplexity =>
    let base_url :=
      get_base_url full_config "perplexity_base_url" "https://api.perplexity.ai"
    { AiRequest.default with
      provider := .Perplexity
      url := base_url ++ "/chat/completions"
      model := get_perplexity_model model.model_id }

/-- Constant head of the `get_key_setup_msg` text (before the secrets path).
Rust's `\`-newline escapes strip the following indentation, so the message
lines have no leading blanks. -/
def key_setup_msg_head : String :=
  "An API key must be provided. Use one of the following options:\n\n1. Set one or more API keys in "

/-- Constant tail of the `get_key_setup_msg` text (after the secrets path). -/
def key_setup_msg_tail : String :=
  "\n(`anthropic_api_key`, `google_api_key`, `groq_api_key`, `openai_api_key`, `perplexity_api_key`)\n2. Set one or more cai specific env variables\n(CAI_ANTHROPIC_API_KEY, CAI_GOOGLE_API_KEY, CAI_GROQ_API_KEY, CAI_OPENAI_API_KEY, CAI_PERPLEXITY_API_KEY)\n3. Set one or more generic env variables\n(ANTHROPIC_API_KEY, GOOGLE_API_KEY, GROQ_API_KEY, OPENAI_API_KEY, PERPLEXITY_API_KEY)\n"

/-- `get_key_setup_msg` of `lib.rs`: the remediation message shown when no
usable API key is found, parameterized only by the secrets-file path. -/
def get_key_setup_msg (secrets_path_str : String) : String :=
  key_setup_msg_head ++ secrets_path_str ++ key_setup_msg_tail

/-- The API-key configuration lookup block at the start of `get_api_request`
(the `dummy_key` binding of the source is inlined for the two local
providers). -/
def provider_api_key (full_config : FullConfig) : Provider → Option String
  | .Anthropic => full_config "anthropic_api_key"
  | .Cerebras => full_config "cerebras_api_key"
  | .DeepSeek => full_config "deepseek_api_key"
  | .Google => full_config "google_api_key"
  | .Groq => full_config "groq_api_key"
  | .Llamafile => some "DUMMY_KEY"
  | .Ollama => some "DUMMY_KEY"
  | .OpenAI => full_config "openai_api_key"
  | .XAI => full_config "xai_api_key"
  | .Perplexity => full_config "perplexity_api_key"

/-- `get_api_request` of `lib.rs`: look up the provider's API key in the
configuration (local providers get a fixed dummy key), reject empty keys
with the key-setup message, and otherwise attach the key to the default
request for the model. -/
def get_api_request (full_config : FullConfig) (secrets_path_str : String)
    (model : Model) : Except String AiRequest :=
  match (provider_api_key full_config model.provider).bind
      (fun api_key => if api_key = "" then none else some api_key) with
  | none => .error (get_key_setup_msg secrets_path_str)
  | some api_key =>
    .ok { default_req_for_model model full_config with api_key := api_key }

/-- `get_used_model` of `lib.rs`: the display label for the chosen model.
The ANSI bold styling produced by `cformat!` is presentation-only and is
omitted from the model; the brain emoji and spacing are kept. -/
def get_used_model (model : Model) : String :=
  if model.model_id = "" then "🧠 " ++ providerDisplay model.provider
  else
    "🧠 " ++ providerDisplay model.provider ++ " " ++
      resolve_model model.provider model.model_id

/-- Rust's `Result::or`: keep the first success, otherwise the second
result. -/
def orExcept (a b : Except String AiRequest) : Except String AiRequest :=
  match a with
  | .ok r => .ok r
  | .error _ => b

/-- `get_http_req` of `lib.rs`: explicit model, or the fixed fallback chain
default-`Model` (Groq `openai/gpt-oss-20b`), Groq `openai/gpt-oss-20b`,
OpenAI `gpt-5-mini`, Anthropic `claude-haiku-4-5`. -/
def get_http_req (optional_model : Option Model)
    (secrets_path_str : String) (full_config : FullConfig) :
    Except String (String × AiRequest) :=
  match optional_model with
  | some model =>
    let used_model := get_used_model model
    (get_api_request full_config secrets_path_str model).map
      (fun req => (used_model, req))
  | none =>
    match
      orExcept
        (orExcept
          (orExcept
            (get_api_request full_config secrets_path_str Model.default)
            (get_api_request full_config secrets_path_str
              ⟨.Groq, "openai/gpt-oss-20b"⟩))
          (get_api_request full_config secrets_path_str
            ⟨.OpenAI, "gpt-5-mini"⟩))
        (get_api_request full_config secrets_path_str
          ⟨.Anthropic, "claude-haiku-4-5"⟩)
    with
    | .error e => .error e
    | .ok req => .ok (get_used_model ⟨req.provider, req.model⟩, req)

/-- The `is_image_generation` predicate computed inside `get_req_body_obj`
(and again in `exec_tool`): OpenAI subcommand with model `"image"`, or the
`Image` subcommand. -/
def is_image_generation (opts : ExecOptions) : Bool :=
  match opts.subcommand with
  | some (.Openai model _) => model == "image"
  | some (.Image _) => true
  | _ => false

/-- Result of the payload shaper: a JSON body, or the direct
`std::process::exit(code)` the source performs on a capability mismatch. -/
inductive ShapeOutcome where
  | payload (body : Json)
  | processExit (code : Nat)

/-- `get_req_body_obj` of `lib.rs`: the payload shaper. Branches in source
order: verbatim JSON passthrough, Google's Gemini shape, OpenAI TTS, OpenAI
image generation, xAI `grok-2-image`, then the default chat shape with the
token-budget field choice and the gated `response_format` inserts (whose
unsupported-provider arms call `std::process::exit(1)` in the source,
modelled as `ShapeOutcome.processExit 1`). -/
def get_req_body_obj (opts : ExecOptions) (http_req : AiRequest)
    (user_input : String) : ShapeOutcome :=
  match parseJson user_input with
  | some json => .payload json
  | none =>
    if http_req.provider = .Google then
      let contents :=
        mapInsert
          (mapInsert [] "role" (Json.str "user"))
          "parts" (Json.arr [Json.obj [("text", Json.str user_input)]])
      let generation_config0 :=
        mapInsert [] "maxOutputTokens" (Json.num http_req.max_tokens)
      let generation_config :=
        if strContainsStr http_req.model "-image" then
          mapInsert generation_config0 "responseModalities"
            (Json.arr [Json.str "IMAGE"])
        else generation_config0
      .payload (Json.obj
        (mapInsert
          (mapInsert [] "contents" (Json.arr [Json.obj contents]))
          "generationConfig" (Json.obj generation_config)))
    else if http_req.provider = .OpenAI ∧
        strContainsStr http_req.model "-tts" then
      .payload (Json.obj
        (mapInsert
          (mapInsert
            (mapInsert [] "model" (Json.str http_req.model))
            "input" (Json.str user_input))
          "voice" (Json.str "alloy")))
    else if http_req.provider = .OpenAI ∧
        (is_image_generation opts ∨
          strStartsWith http_req.model "gpt-image" ∨
          strStartsWith http_req.model "dall-e") then
      .payload (Json.obj
        (mapInsert
          (mapInsert [] "model" (Json.str http_req.model))
          "prompt" (Json.str user_input)))
    else if http_req.provider = .XAI ∧ http_req.model = "grok-2-image" then
      .payload (Json.obj
        (mapInsert
          (mapInsert
            (mapInsert [] "model" (Json.str http_req.model))
            "prompt" (Json.str user_input))
          "n" (Json.num 1)))
    else
      let map0 := mapInsert [] "model" (Json.str http_req.model)
      let map1 :=
        if http_req.provider = .OpenAI ∧
            (strStartsWith http_req.model "o1" ∨
              strStartsWith http_req.model "o3" ∨
              strStartsWith http_req.model "o4" ∨
              strStartsWith http_req.model "gpt-5") then
          mapInsert map0 "max_completion_tokens" (Json.num http_req.max_tokens)
        else
          mapInsert map0 "max_tokens" (Json.num http_req.max_tokens)
      let step2 : Option (List (String × Json)) :=
        if opts.is_json then
          match http_req.provider with
          | .OpenAI | .Groq | .Ollama =>
            some (mapInsert map1 "response_format"
              (Json.obj [("type", Json.str "json_object")]))
          | _ => none
        else some map1
      match step2 with
      | none => .processExit 1
      | some map2 =>
        let step3 : Option (List (String × Json)) :=
          match opts.json_schema with
          | some sch =>
            match http_req.provider with
            | .OpenAI | .Ollama =>
              some (mapInsert map2 "response_format"
                (Json.obj
                  (mapInsert
                    (mapInsert [] "type" (Json.str "json_schema"))
                    "json_schema" sch)))
            | _ => none
          | none => some map2
        match step3 with
        | none => .processExit 1
        | some map3 =>
          .payload (Json.obj
            (mapInsert map3 "messages"
              (Json.arr [Json.obj
                [("role", Json.str "user"),
                 ("content", Json.str user_input)]])))

/-- The pre-dispatch phase of `exec_tool` in `lib.rs`: resolve the request
via `get_http_req` first, and only then reject an empty prompt ("This is
checked here, so that the missing API key message comes first"). -/
def exec_tool_pre (full_config : FullConfig) (secrets_path_str : String)
    (optional_model : Option Model) (user_input : String) :
    Except String (String × AiRequest) :=
  match get_http_req optional_model secrets_path_str full_config with
  | .error e => .error e
  | .ok r =>
    if user_input = "" then .error "No prompt was provided" else .ok r

/-- `AnthropicAiContent` of `lib.rs`. -/
structure AnthropicAiContent where
  text : String

/-- `AnthropicAiResponse` of `lib.rs`. -/
structure AnthropicAiResponse where
  content : List AnthropicAiContent

/-- `AiMessage` of `lib.rs` (only the `content` field is deserialized). -/
structure AiMessage where
  content : String

/-- `AiChoice` of `lib.rs` (only the `message` field is deserialized). -/
structure AiChoice where
  message : AiMessage

/-- `SearchResult` of `lib.rs` (Perplexity citations). -/
structure SearchResult where
  title : String
  url : String
  date : Option String
  last_updated : Option String

/-- `AiResponse` of `lib.rs`. -/
structure AiResponse where
  choices : List AiChoice
  search_results : Option (List SearchResult)

/-- A successfully deserialized 2xx response body, tagged by the
deserialization target the extraction `match` in `exec_tool` uses for the
request's provider: `AnthropicAiResponse` for Anthropic, raw JSON for
Google, `AiResponse` for every other provider. -/
inductive ProviderResponse where
  | anthropic (r : AnthropicAiResponse)
  | google (v : Json)
  | chat (r : AiResponse)

/-- Result of the text-extraction `match` of `exec_tool` (lib.rs lines
937-961): the displayed message plus optional search results, or the panic
Rust raises when `content[0]` / `choices[0]` indexes an empty vector. -/
inductive ExtractOutcome where
  | ok (msg : String) (search_results : Option (List SearchResult))
  | panic

/-- Navigation (`resp["candidates"][0]["content"]["parts"][0]["text"]`)
used for Google responses: `Value::index` yields `Null` on any missing path
segment, and `as_str().unwrap_or_default()` turns non-strings into `""`. -/
def googleExtractText (v : Json) : String :=
  let candidate0 :=
    match v with
    | .obj entries =>
      match lookupKey entries "candidates" with
      | some (.arr (c :: _)) => c
      | _ => Json.null
    | _ => Json.null
  let part0 :=
    match candidate0 with
    | .obj entries =>
      match lookupKey entries "content" with
      | some (.obj centries) =>
        match lookupKey centries "parts" with
        | some (.arr (p :: _)) => p
        | _ => Json.null
      | _ => Json.null
    | _ => Json.null
  match part0 with
  | .obj entries =>
    match lookupKey entries "text" with
    | some (.str s) => s
    | _ => ""
  | _ => ""

/-- The success-path text extraction of `exec_tool`: Anthropic takes
`content[0].text` (panics when `content` is empty), Google navigates the
candidates path with a default, all other providers take
`choices[0].message.content` (panics when `choices` is empty). -/
def extract_msg (resp : ProviderResponse) : ExtractOutcome :=
  match resp with
  | .anthropic r =>
    match r.content with
    | [] => .panic
    | c :: _ => .ok c.text none
  | .google v => .ok (googleExtractText v) none
  | .chat r =>
    match r.choices with
    | [] => .panic
    | c :: _ => .ok c.message.content r.search_results


/-- The empty configuration: no keys set at all. -/
def emptyConfig : FullConfig := fun _ => none

/-- A sample secrets-file path used in concrete scenarios. -/
def samplePath : String := "/root/.config/cai/secrets.yaml"

/-- The provider-family credential tokens that do occur in the key-setup
message: three mechanisms for each of the five families Anthropic, Google,
Groq, OpenAI, Perplexity. -/
def credentialMsgTokens : List String :=
  ["anthropic_api_key", "google_api_key", "groq_api_key", "openai_api_key",
   "perplexity_api_key", "CAI_ANTHROPIC_API_KEY", "CAI_GOOGLE_API_KEY",
   "CAI_GROQ_API_KEY", "CAI_OPENAI_API_KEY", "CAI_PERPLEXITY_API_KEY",
   "ANTHROPIC_API_KEY", "GOOGLE_API_KEY", "GROQ_API_KEY", "OPENAI_API_KEY",
   "PERPLEXITY_API_KEY"]

/-- A configuration key that is either absent or set to the empty string. -/
def keyAbsent (full_config : FullConfig) (key : String) : Prop :=
  full_config key = none ∨ full_config key = some ""

/-- A configuration holding only a non-empty Anthropic key. -/
def cfgAnthOnly : FullConfig := fun key =>
  if key = "anthropic_api_key" then some "sk-ant-test" else none

/-- The OpenAI request descriptor for alias `4o` (resolved model `gpt-4o`). -/
def reqGpt4o : AiRequest := default_req_for_model ⟨.OpenAI, "4o"⟩ emptyConfig

/-- A small JSON schema used in concrete scenarios. -/
def sampleSchema : Json := Json.obj [("name", Json.str "x")]

/-- String concatenation concatenates the underlying character lists. -/
theorem str_data_append (a b : String) : (a ++ b).data = a.data ++ b.data :=
  rfl

/-- `containsAux` is monotone under prepending characters. -/
theorem containsAux_append (sub a b : List Char)
    (h : containsAux sub b = true) : containsAux sub (a ++ b) = true := by
  induction a with
  | nil => simpa using h
  | cons c a ih =>
    simp only [List.cons_append, containsAux, Bool.or_eq_true]
    exact Or.inr ih

/-- Any substring of the constant tail of the key-setup message occurs in
the full message, whatever the secrets path is. -/
theorem key_setup_contains_tail (sp t : String)
    (h : strContainsStr key_setup_msg_tail t = true) :
    strContainsStr (get_key_setup_msg sp) t = true := by
  unfold strContainsStr get_key_setup_msg
  rw [str_data_append, str_data_append, List.append_assoc]
  exact containsAux_append _ _ _
    (containsAux_append _ _ _ (by simpa [strContainsStr] using h))

/-- Every error produced by `get_api_request` is the key-setup message. -/
theorem get_api_request_error_msg (full_config : FullConfig)
    (sp : String) (m : Model) (e : String)
    (h : get_api_request full_config sp m = .error e) :
    e = get_key_setup_msg sp := by
  unfold get_api_request at h
  split at h
  · injection h with h1
    exact h1.symm
  · cases h

/-- `orExcept` yields an error only when both operands are errors, and its
error is the second operand's error. -/
theorem orExcept_error (a b : Except String AiRequest) (e : String)
    (h : orExcept a b = .error e) :
    (∃ ea, a = .error ea) ∧ b = .error e := by
  cases a with
  | ok r => simp [orExcept] at h
  | error ea => exact ⟨⟨ea, rfl⟩, by simpa [orExcept] using h⟩

/-- Every error produced by `get_http_req` is the key-setup message. -/
theorem get_http_req_error_msg (om : Option Model) (sp : String)
    (full_config : FullConfig) (e : String)
    (h : get_http_req om sp full_config = .error e) :
    e = get_key_setup_msg sp := by
  cases om with
  | some m =>
    simp only [get_http_req] at h
    cases hx : get_api_request full_config sp m with
    | ok r =>
      rw [hx] at h
      simp [Except.map] at h
    | error e2 =>
      rw [hx] at h
      simp only [Except.map] at h
      injection h with h1
      rw [← h1]
      exact get_api_request_error_msg _ _ _ _ hx
  | none =>
    simp only [get_http_req] at h
    split at h
    · rename_i e1 heq
      injection h with h1
      rw [← h1]
      have hp := orExcept_error _ _ _ heq
      exact get_api_request_error_msg _ _ _ _ hp.2
    · cases h

/-- The key-setup message is never the empty-prompt message (its constant
head alone is longer than the whole empty-prompt message). -/
theorem key_setup_msg_ne_no_prompt (sp : String) :
    get_key_setup_msg sp ≠ "No prompt was provided" := by
  intro h
  have hl := congrArg String.length h
  rw [get_key_setup_msg, String.length_append, String.length_append] at hl
  have h1 : 22 < key_setup_msg_head.length := by decide
  have h2 : ("No prompt was provided" : String).length = 22 := by decide
  omega

/-- Claim C8: shaping a request for provider Anthropic with resolved model
`claude-3-5-haiku-latest`, the default token budget (4096), default
execution options and prompt `"Hello"` produces exactly the JSON body
`\x7b"model":"claude-3-5-haiku-latest","max_tokens":4096,"messages":
[\x7b"role":"user","content":"Hello"\x7d]\x7d`, with no other fields. -/
theorem c8_anthropic_hello_body :
    get_req_body_obj ExecOptions.default
      (default_req_for_model ⟨.Anthropic, "claude-3-5-haiku-latest"⟩
        emptyConfig)
      "Hello" =
    .payload (Json.obj
      [("model", Json.str "claude-3-5-haiku-latest"),
       ("max_tokens", Json.num 4096),
       ("messages", Json.arr [Json.obj
         [("role", Json.str "user"),
          ("content", Json.str "Hello")]])]) := by
  rfl

/-- Claim C9: whenever the prompt itself parses as valid JSON, the payload
shaper returns the parsed JSON verbatim as the request body, for every
provider and every combination of execution options; in particular no
capability check runs, so no capability-mismatch exit occurs. -/
theorem c9_json_passthrough (opts : ExecOptions) (http_req : AiRequest)
    (user_input : String) (j : Json)
    (h : parseJson user_input = some j) :
    get_req_body_obj opts http_req user_input = .payload j := by
  unfold get_req_body_obj
  rw [h]

/-- Witness for C9: a JSON prompt on Anthropic with `is_json` set passes
through verbatim without any capability error. -/
theorem c9_json_passthrough_witness :
    get_req_body_obj ⟨false, true, none, none⟩
      (default_req_for_model ⟨.Anthropic, "claude-3-5-haiku-latest"⟩
        emptyConfig)
      "[1, 2]" = .payload (Json.arr [Json.num 1, Json.num 2]) :=
  c9_json_passthrough _ _ _ _ (by rfl)

/-- Claim C2: the response extractor indexes `content[0]` / `choices[0]`
directly, so a 2xx Anthropic body with an empty `content` array, or a
chat-style body with an empty `choices` array, makes the source panic with
an index-out-of-bounds instead of returning an error (code bug relative to
the claim). -/
theorem c2_empty_arrays_panic :
    extract_msg (.anthropic ⟨[]⟩) = .panic ∧
    extract_msg (.chat ⟨[], none⟩) = .panic :=
  ⟨rfl, rfl⟩

/-- `resolve_alias` returns the input unchanged when no entry matches. -/
theorem resolve_alias_of_none (t : List (String × String)) (s : String)
    (h : t.find? (fun e => e.1 == s) = none) : resolve_alias t s = s := by
  unfold resolve_alias
  rw [h]

/-- `resolve_alias` returns the first matching entry's value. -/
theorem resolve_alias_of_some (t : List (String × String)) (s : String)
    (kv : String × String)
    (h : t.find? (fun e => e.1 == s) = some kv) : resolve_alias t s = kv.2 := by
  unfold resolve_alias
  rw [h]

/-- A string that is not a key of the table is not found by `find?`. -/
theorem find?_eq_none_of_not_key (t : List (String × String)) (s : String)
    (h : s ∉ t.map Prod.fst) : t.find? (fun e => e.1 == s) = none := by
  rw [List.find?_eq_none]
  intro x hx
  simp only [beq_iff_eq]
  intro heq
  exact h (heq ▸ List.mem_map_of_mem Prod.fst hx)

/-- Claim C5: for every provider, alias resolution is a total function with
ordered first-match-wins lookup, and any string that does not occur as a key
in that provider's alias table is returned unchanged. -/
theorem c5_alias_resolution (p : Provider) (s : String) :
    (s ∉ (modelMapping p).map Prod.fst → resolve_model p s = s) ∧
    (∀ kv, (modelMapping p).find? (fun e => e.1 == s) = some kv →
      resolve_model p s = kv.2) := by
  cases p <;>
    exact
      ⟨fun h => resolve_alias_of_none _ _ (find?_eq_none_of_not_key _ _ h),
       fun kv h => resolve_alias_of_some _ _ _ h⟩

/-- Witness for C5: `my-custom-model` is not an OpenAI alias and passes
through unchanged, while the alias `4o` resolves to its first table
entry `gpt-4o`. -/
theorem c5_alias_resolution_witness :
    resolve_model .OpenAI "my-custom-model" = "my-custom-model" ∧
    resolve_model .OpenAI "4o" = "gpt-4o" :=
  ⟨(c5_alias_resolution .OpenAI "my-custom-model").1 (by decide),
   (c5_alias_resolution .OpenAI "4o").2 ("4o", "gpt-4o") (by rfl)⟩

set_option maxRecDepth 40000 in
/-- Claim C7 counterexample: a missing Cerebras key is reported with the
key-setup message, Cerebras is a supported provider whose key is read from
the `cerebras_api_key` configuration entry, yet the message does not mention
`cerebras_api_key` at all — so the message does not enumerate the
credential mechanisms for all supported provider families. -/
theorem c7_counterexample :
    get_api_request emptyConfig samplePath ⟨.Cerebras, "llama"⟩ =
      .error (get_key_setup_msg samplePath) ∧
    provider_api_key emptyConfig .Cerebras = emptyConfig "cerebras_api_key" ∧
    strContainsStr (get_key_setup_msg samplePath) "cerebras_api_key" =
      false := by
  exact ⟨rfl, rfl, by decide⟩

set_option maxRecDepth 40000 in
/-- Claim C7 (amended): a MissingCredential error's message is the same
fixed text regardless of which provider's missing key triggered it, and it
enumerates all three credential-configuration mechanisms for the Anthropic,
Google, Groq, OpenAI and Perplexity families — but not for the Cerebras,
DeepSeek or xAI families, which also require keys. -/
theorem c7_amended_message :
    (∀ (full_config : FullConfig) (sp : String) (m : Model) (e : String),
      get_api_request full_config sp m = .error e →
        e = get_key_setup_msg sp) ∧
    (∀ (sp t : String), t ∈ credentialMsgTokens →
      strContainsStr (get_key_setup_msg sp) t = true) := by
  refine ⟨get_api_request_error_msg, ?_⟩
  intro sp t ht
  apply key_setup_contains_tail
  revert ht
  revert t
  decide

/-- Witness for C7 (amended): a missing Groq key produces exactly the
key-setup message, and the message mentions `groq_api_key`. -/
theorem c7_amended_message_witness :
    get_key_setup_msg samplePath = get_key_setup_msg samplePath ∧
    strContainsStr (get_key_setup_msg samplePath) "groq_api_key" = true :=
  ⟨c7_amended_message.1 emptyConfig samplePath ⟨.Groq, ""⟩ _ (by rfl),
   c7_amended_message.2 samplePath "groq_api_key" (by decide)⟩

/-- Claim C6: the empty-prompt check runs only after credential resolution —
whenever `get_http_req` fails, `exec_tool` reports exactly that
(key-setup) error even for an empty prompt, and the empty-prompt error can
only arise after credential resolution succeeded. -/
theorem c6_empty_prompt_after_credentials (full_config : FullConfig)
    (sp : String) (om : Option Model) (input : String) :
    (∀ e, get_http_req om sp full_config = .error e →
      exec_tool_pre full_config sp om input = .error e ∧
      e = get_key_setup_msg sp) ∧
    (exec_tool_pre full_config sp om input = .error "No prompt was provided" →
      input = "" ∧ ∃ r, get_http_req om sp full_config = .ok r) := by
  constructor
  · intro e h
    refine ⟨?_, get_http_req_error_msg _ _ _ _ h⟩
    unfold exec_tool_pre
    rw [h]
  · intro h
    unfold exec_tool_pre at h
    cases hx : get_http_req om sp full_config with
    | error e =>
      rw [hx] at h
      injection h with h1
      have hmsg := get_http_req_error_msg _ _ _ _ hx
      exact absurd (hmsg.symm.trans h1) (key_setup_msg_ne_no_prompt sp)
    | ok r =>
      rw [hx] at h
      dsimp only at h
      by_cases hi : input = ""
      · exact ⟨hi, r, rfl⟩
      · rw [if_neg hi] at h
        cases h

/-- Witness for C6: with no keys configured and an empty prompt, the
reported error is the key-setup message, not the empty-prompt message. -/
theorem c6_empty_prompt_after_credentials_witness :
    exec_tool_pre emptyConfig samplePath none "" =
      .error (get_key_setup_msg samplePath) ∧
    get_key_setup_msg samplePath = get_key_setup_msg samplePath :=
  (c6_empty_prompt_after_credentials emptyConfig samplePath none "").1 _
    (by rfl)

/-- `get_api_request` fails with the key-setup message when the provider's
key is absent or empty. -/
theorem gar_error_of_absent (full_config : FullConfig) (sp : String)
    (m : Model)
    (h : provider_api_key full_config m.provider = none ∨
      provider_api_key full_config m.provider = some "") :
    get_api_request full_config sp m = .error (get_key_setup_msg sp) := by
  unfold get_api_request
  rcases h with h | h <;> rw [h] <;> simp

/-- `get_api_request` succeeds with the configured key when it is present
and non-empty. -/
theorem gar_ok_of_key (full_config : FullConfig) (sp : String) (m : Model)
    (k : String) (h : provider_api_key full_config m.provider = some k)
    (hk : k ≠ "") :
    get_api_request full_config sp m =
      .ok { default_req_for_model m full_config with api_key := k } := by
  unfold get_api_request
  rw [h]
  simp [hk]

/-- `get_api_request` errors exactly when the provider's key is absent or
empty. -/
theorem gar_error_iff (full_config : FullConfig) (sp : String) (m : Model) :
    (∃ e, get_api_request full_config sp m = .error e) ↔
    (provider_api_key full_config m.provider = none ∨
      provider_api_key full_config m.provider = some "") := by
  constructor
  · rintro ⟨e, h⟩
    cases hx : provider_api_key full_config m.provider with
    | none => exact Or.inl rfl
    | some s =>
      by_cases hs : s = ""
      · exact Or.inr (by rw [hs])
      · rw [gar_ok_of_key full_config sp m s hx hs] at h
        cases h
  · intro h
    exact ⟨_, gar_error_of_absent full_config sp m h⟩

/-- Claim C3: with no explicit model, selection tries Groq, then OpenAI,
then Anthropic; when only the Anthropic key is present and non-empty the
result is an Anthropic request descriptor (never Groq, never OpenAI, never
an error), and an error arises exactly when all attempted providers lack a
usable key. -/
theorem c3_credential_fallback (full_config : FullConfig) (sp k : String)
    (hg : keyAbsent full_config "groq_api_key")
    (ho : keyAbsent full_config "openai_api_key")
    (ha : full_config "anthropic_api_key" = some k) (hk : k ≠ "") :
    (∃ label req, get_http_req none sp full_config = .ok (label, req) ∧
      req.provider = .Anthropic ∧ req.model = "claude-haiku-4-5" ∧
      req.api_key = k) ∧
    (∀ cfg2 : FullConfig,
      (∃ e, get_http_req none sp cfg2 = .error e) ↔
      (keyAbsent cfg2 "groq_api_key" ∧ keyAbsent cfg2 "openai_api_key" ∧
        keyAbsent cfg2 "anthropic_api_key")) := by
  constructor
  · have e1 : get_api_request full_config sp Model.default =
        .error (get_key_setup_msg sp) :=
      gar_error_of_absent full_config sp Model.default hg
    have e2 : get_api_request full_config sp ⟨.Groq, "openai/gpt-oss-20b"⟩ =
        .error (get_key_setup_msg sp) :=
      gar_error_of_absent full_config sp _ hg
    have e3 : get_api_request full_config sp ⟨.OpenAI, "gpt-5-mini"⟩ =
        .error (get_key_setup_msg sp) :=
      gar_error_of_absent full_config sp _ ho
    have e4 : get_api_request full_config sp
        ⟨.Anthropic, "claude-haiku-4-5"⟩ =
        .ok { default_req_for_model ⟨.Anthropic, "claude-haiku-4-5"⟩
                full_config with api_key := k } :=
      gar_ok_of_key full_config sp _ k ha hk
    have hok : get_http_req none sp full_config =
        .ok (get_used_model
              ⟨Provider.Anthropic, get_anthropic_model "claude-haiku-4-5"⟩,
            { default_req_for_model ⟨.Anthropic, "claude-haiku-4-5"⟩
                full_config with api_key := k }) := by
      simp only [get_http_req]
      rw [e1, e2, e3, e4]
      rfl
    exact ⟨_, _, hok, rfl, by rfl, rfl⟩
  · intro cfg2
    constructor
    · rintro ⟨e, h⟩
      simp only [get_http_req] at h
      split at h
      · rename_i e1 heq
        have p1 := orExcept_error _ _ _ heq
        have hAnth := (gar_error_iff cfg2 sp _).mp ⟨_, p1.2⟩
        obtain ⟨ea, hA3⟩ := p1.1
        have p2 := orExcept_error _ _ _ hA3
        have hOpen := (gar_error_iff cfg2 sp _).mp ⟨_, p2.2⟩
        obtain ⟨eb, hA2⟩ := p2.1
        have p3 := orExcept_error _ _ _ hA2
        have hGroq := (gar_error_iff cfg2 sp _).mp ⟨_, p3.2⟩
        exact ⟨hGroq, hOpen, hAnth⟩
      · cases h
    · rintro ⟨h1, h2, h3⟩
      have e1 : get_api_request cfg2 sp Model.default =
          .error (get_key_setup_msg sp) :=
        gar_error_of_absent cfg2 sp Model.default h1
      have e2 : get_api_request cfg2 sp ⟨.Groq, "openai/gpt-oss-20b"⟩ =
          .error (get_key_setup_msg sp) :=
        gar_error_of_absent cfg2 sp _ h1
      have e3 : get_api_request cfg2 sp ⟨.OpenAI, "gpt-5-mini"⟩ =
          .error (get_key_setup_msg sp) :=
        gar_error_of_absent cfg2 sp _ h2
      have e4 : get_api_request cfg2 sp ⟨.Anthropic, "claude-haiku-4-5"⟩ =
          .error (get_key_setup_msg sp) :=
        gar_error_of_absent cfg2 sp _ h3
      refine ⟨get_key_setup_msg sp, ?_⟩
      simp only [get_http_req]
      rw [e1, e2, e3, e4]
      rfl

/-- Witness for C3: with only the Anthropic key configured, selection with
no explicit model yields an Anthropic descriptor carrying that key. -/
theorem c3_credential_fallback_witness :
    ∃ label req, get_http_req none samplePath cfgAnthOnly = .ok (label, req) ∧
      req.provider = .Anthropic ∧ req.model = "claude-haiku-4-5" ∧
      req.api_key = "sk-ant-test" :=
  (c3_credential_fallback cfgAnthOnly samplePath "sk-ant-test"
    (Or.inl rfl) (Or.inl rfl) rfl (by decide)).1

/-- Claim C4: on the default chat branch for OpenAI, the payload carries
`max_completion_tokens` exactly when the resolved model name starts with
`o1`, `o3`, `o4` or `gpt-5`, and `max_tokens` exactly otherwise — never
both, never neither. -/
theorem c4_token_budget_field (opts : ExecOptions) (http_req : AiRequest)
    (input : String)
    (hprov : http_req.provider = .OpenAI)
    (hparse : parseJson input = none)
    (htts : strContainsStr http_req.model "-tts" = false)
    (himg : is_image_generation opts = false)
    (hgi : strStartsWith http_req.model "gpt-image" = false)
    (hde : strStartsWith http_req.model "dall-e" = false) :
    ∃ entries,
      get_req_body_obj opts http_req input = .payload (Json.obj entries) ∧
      ((hasKey entries "max_completion_tokens" = true) ↔
        (strStartsWith http_req.model "o1" = true ∨
         strStartsWith http_req.model "o3" = true ∨
         strStartsWith http_req.model "o4" = true ∨
         strStartsWith http_req.model "gpt-5" = true)) ∧
      ((hasKey entries "max_tokens" = true) ↔
        ¬(strStartsWith http_req.model "o1" = true ∨
          strStartsWith http_req.model "o3" = true ∨
          strStartsWith http_req.model "o4" = true ∨
          strStartsWith http_req.model "gpt-5" = true)) := by
  by_cases hcond : (strStartsWith http_req.model "o1" = true ∨
      strStartsWith http_req.model "o3" = true ∨
      strStartsWith http_req.model "o4" = true ∨
      strStartsWith http_req.model "gpt-5" = true) <;>
    cases hj : opts.is_json <;>
    rcases hjs : opts.json_schema with _ | sch <;>
    · simp only [get_req_body_obj, hparse, hprov, htts, himg, hgi, hde, hj,
        hjs, hcond]
      simp only [reduceCtorEq, if_false, if_true, iff_true, iff_false,
        Bool.false_eq_true, false_and, true_and, and_false, and_true,
        or_false, false_or, not_false_iff, ite_false, ite_true]
      refine ⟨_, rfl, ?_, ?_⟩ <;>
        simp [hasKey, mapInsert, hcond]

/-- Witness for C4: for resolved model `gpt-4o` the payload carries
`max_tokens` and not `max_completion_tokens`. -/
theorem c4_token_budget_field_witness :
    ∃ entries,
      get_req_body_obj ExecOptions.default reqGpt4o "Hello" =
        .payload (Json.obj entries) ∧
      ((hasKey entries "max_completion_tokens" = true) ↔
        (strStartsWith reqGpt4o.model "o1" = true ∨
         strStartsWith reqGpt4o.model "o3" = true ∨
         strStartsWith reqGpt4o.model "o4" = true ∨
         strStartsWith reqGpt4o.model "gpt-5" = true)) ∧
      ((hasKey entries "max_tokens" = true) ↔
        ¬(strStartsWith reqGpt4o.model "o1" = true ∨
          strStartsWith reqGpt4o.model "o3" = true ∨
          strStartsWith reqGpt4o.model "o4" = true ∨
          strStartsWith reqGpt4o.model "gpt-5" = true)) :=
  c4_token_budget_field ExecOptions.default reqGpt4o "Hello"
    rfl rfl rfl rfl rfl rfl

/-- Claim C10: on the default chat branch for OpenAI the payload carries at
most one `response_format` field, and when both `is_json` and a JSON schema
are supplied the `json_schema` form overwrites the `json_object` form. -/
theorem c10_response_format_overwrite (opts : ExecOptions)
    (http_req : AiRequest) (input : String)
    (hprov : http_req.provider = .OpenAI)
    (hparse : parseJson input = none)
    (htts : strContainsStr http_req.model "-tts" = false)
    (himg : is_image_generation opts = false)
    (hgi : strStartsWith http_req.model "gpt-image" = false)
    (hde : strStartsWith http_req.model "dall-e" = false) :
    (∃ entries, get_req_body_obj opts http_req input =
        .payload (Json.obj entries) ∧
      countKey entries "response_format" ≤ 1) ∧
    (∀ sch, opts.is_json = true → opts.json_schema = some sch →
      ∃ entries, get_req_body_obj opts http_req input =
          .payload (Json.obj entries) ∧
        countKey entries "response_format" = 1 ∧
        lookupKey entries "response_format" =
          some (Json.obj [("type", Json.str "json_schema"),
                          ("json_schema", sch)])) := by
  constructor
  · by_cases hcond : (strStartsWith http_req.model "o1" = true ∨
        strStartsWith http_req.model "o3" = true ∨
        strStartsWith http_req.model "o4" = true ∨
        strStartsWith http_req.model "gpt-5" = true) <;>
      cases hj : opts.is_json <;>
      rcases hjs : opts.json_schema with _ | sch <;>
      · simp only [get_req_body_obj, hparse, hprov, htts, himg, hgi, hde,
          hj, hjs, hcond]
        simp only [reduceCtorEq, Bool.false_eq_true, false_and, true_and,
          and_false, and_true, or_false, false_or, iff_true, iff_false,
          ite_false, ite_true]
        refine ⟨_, rfl, ?_⟩
        simp [countKey, mapInsert]
  · intro sch hj2 hjs2
    by_cases hcond : (strStartsWith http_req.model "o1" = true ∨
        strStartsWith http_req.model "o3" = true ∨
        strStartsWith http_req.model "o4" = true ∨
        strStartsWith http_req.model "gpt-5" = true) <;>
      · simp only [get_req_body_obj, hparse, hprov, htts, himg, hgi, hde,
          hj2, hjs2, hcond]
        simp only [reduceCtorEq, Bool.false_eq_true, false_and, true_and,
          and_false, and_true, or_false, false_or, iff_true, iff_false,
          ite_false, ite_true]
        refine ⟨_, rfl, ?_, ?_⟩ <;>
          simp [countKey, lookupKey, mapInsert]

/-- Witness for C10: with both `is_json` and a schema set on OpenAI, the
final payload holds exactly one `response_format`, in the `json_schema`
form. -/
theorem c10_response_format_overwrite_witness :
    ∃ entries,
      get_req_body_obj ⟨false, true, some sampleSchema, none⟩ reqGpt4o
          "Hello" = .payload (Json.obj entries) ∧
      countKey entries "response_format" = 1 ∧
      lookupKey entries "response_format" =
        some (Json.obj [("type", Json.str "json_schema"),
                        ("json_schema", sampleSchema)]) :=
  (c10_response_format_overwrite ⟨false, true, some sampleSchema, none⟩
    reqGpt4o "Hello" rfl rfl rfl rfl rfl rfl).2 sampleSchema rfl rfl

/-- Claim C1 counterexample: with `is_json` set on Anthropic and a non-JSON
prompt, the shaper terminates the process directly (exit code 1) instead of
returning a typed, catchable error to the caller. -/
theorem c1_counterexample :
    get_req_body_obj ⟨false, true, none, none⟩
      (default_req_for_model ⟨.Anthropic, "claude-3-5-haiku-latest"⟩
        emptyConfig)
      "Hello" = .processExit 1 := by
  rfl

/-- Claim C1 (amended): with `is_json` set and a non-JSON prompt, a provider
outside OpenAI, Groq and Ollama never receives a payload containing
`response_format`; but instead of a typed error, the shaper either returns
the provider's special-case payload with the JSON flag silently ignored
(Google, and xAI with model `grok-2-image`), or terminates the process with
exit code 1 from inside the shaping logic (every other such provider). -/
theorem c1_amended_capability_exit (opts : ExecOptions)
    (http_req : AiRequest) (input : String)
    (hparse : parseJson input = none)
    (hj : opts.is_json = true)
    (hu : ¬(http_req.provider = .OpenAI ∨ http_req.provider = .Groq ∨
        http_req.provider = .Ollama)) :
    (∀ entries, get_req_body_obj opts http_req input =
        .payload (Json.obj entries) →
      hasKey entries "response_format" = false) ∧
    (http_req.provider = .Google →
      ∃ entries, get_req_body_obj opts http_req input =
        .payload (Json.obj entries)) ∧
    (http_req.provider ≠ .Google →
      ¬(http_req.provider = .XAI ∧ http_req.model = "grok-2-image") →
      get_req_body_obj opts http_req input = .processExit 1) := by
  cases hp : http_req.provider with
  | OpenAI => exact absurd (Or.inl hp) hu
  | Groq => exact absurd (Or.inr (Or.inl hp)) hu
  | Ollama => exact absurd (Or.inr (Or.inr hp)) hu
  | Google =>
    refine ⟨?_, ?_, fun hne _ => absurd rfl hne⟩
    · intro entries h
      by_cases hgi : strContainsStr http_req.model "-image" = true <;>
        · simp only [get_req_body_obj, hparse, hp, hgi] at h
          simp only [reduceCtorEq, Bool.false_eq_true, false_and, true_and,
            and_false, and_true, iff_true, iff_false, ite_false,
            ite_true] at h
          injection h with h1
          injection h1 with h2
          subst h2
          simp [hasKey, mapInsert]
    · intro _
      by_cases hgi : strContainsStr http_req.model "-image" = true <;>
        · simp only [get_req_body_obj, hparse, hp, hgi]
          simp only [reduceCtorEq, Bool.false_eq_true, false_and, true_and,
            and_false, and_true, iff_true, iff_false, ite_false, ite_true]
          exact ⟨_, rfl⟩
  | XAI =>
    by_cases hgm : http_req.model = "grok-2-image"
    · refine ⟨?_, fun hG => absurd hG (by decide), ?_⟩
      · intro entries h
        simp only [get_req_body_obj, hparse, hp, hgm] at h
        simp only [reduceCtorEq, Bool.false_eq_true, false_and, true_and,
          and_false, and_true, iff_true, iff_false, ite_false, ite_true,
          if_true] at h
        injection h with h1
        injection h1 with h2
        subst h2
        simp [hasKey, mapInsert]
      · intro _ hnx
        exact absurd ⟨rfl, hgm⟩ hnx
    · refine ⟨?_, fun hG => absurd hG (by decide), ?_⟩
      · intro entries h
        simp only [get_req_body_obj, hparse, hp, hj, hgm] at h
        simp only [reduceCtorEq, Bool.false_eq_true, false_and, true_and,
          and_false, and_true, iff_true, iff_false, ite_false, ite_true,
          if_false] at h
      · intro _ _
        simp [get_req_body_obj, hparse, hp, hj, hgm]
  | Anthropic =>
    refine ⟨?_, fun hG => absurd hG (by decide), fun _ _ => ?_⟩
    · intro entries h
      simp only [get_req_body_obj, hparse, hp, hj] at h
      simp only [reduceCtorEq, Bool.false_eq_true, false_and, true_and,
        and_false, and_true, iff_true, iff_false, ite_false, ite_true] at h
    · simp [get_req_body_obj, hparse, hp, hj]
  | Cerebras =>
    refine ⟨?_, fun hG => absurd hG (by decide), fun _ _ => ?_⟩
    · intro entries h
      simp only [get_req_body_obj, hparse, hp, hj] at h
      simp only [reduceCtorEq, Bool.false_eq_true, false_and, true_and,
        and_false, and_true, iff_true, iff_false, ite_false, ite_true] at h
    · simp [get_req_body_obj, hparse, hp, hj]
  | DeepSeek =>
    refine ⟨?_, fun hG => absurd hG (by decide), fun _ _ => ?_⟩
    · intro entries h
      simp only [get_req_body_obj, hparse, hp, hj] at h
      simp only [reduceCtorEq, Bool.false_eq_true, false_and, true_and,
        and_false, and_true, iff_true, iff_false, ite_false, ite_true] at h
    · simp [get_req_body_obj, hparse, hp, hj]
  | Llamafile =>
    refine ⟨?_, fun hG => absurd hG (by decide), fun _ _ => ?_⟩
    · intro entries h
      simp only [get_req_body_obj, hparse, hp, hj] at h
      simp only [reduceCtorEq, Bool.false_eq_true, false_and, true_and,
        and_false, and_true, iff_true, iff_false, ite_false, ite_true] at h
    · simp [get_req_body_obj, hparse, hp, hj]
  | Perplexity =>
    refine ⟨?_, fun hG => absurd hG (by decide), fun _ _ => ?_⟩
    · intro entries h
      simp only [get_req_body_obj, hparse, hp, hj] at h
      simp only [reduceCtorEq, Bool.false_eq_true, false_and, true_and,
        and_false, and_true, iff_true, iff_false, ite_false, ite_true] at h
    · simp [get_req_body_obj, hparse, hp, hj]

/-- Witness for C1 (amended): Google with `is_json` set and a non-JSON
prompt still receives a (Gemini-shaped) payload — the flag is ignored, no
error and no exit. -/
theorem c1_amended_capability_exit_witness :
    ∃ entries,
      get_req_body_obj ⟨false, true, none, none⟩
        (default_req_for_model ⟨.Google, "gemini"⟩ emptyConfig) "Hello" =
        .payload (Json.obj entries) :=
  (c1_amended_capability_exit ⟨false, true, none, none⟩
    (default_req_for_model ⟨.Google, "gemini"⟩ emptyConfig) "Hello"
    rfl rfl (by decide)).2.1 rfl
